import Mathlib

/-
  Verification development for the safepay risk-scoring engine.

  Shallow embedding conventions:
  * Python floats are modelled as exact rationals (ℚ).
  * Python dicts used as key → value maps are modelled as association lists.
  * External ML library calls (sklearn predict_proba, IsolationForest
    score_samples) are modelled as oracle functions supplied as parameters;
    an oracle returning none models the call raising an exception.
  * Python round(x, n) is modelled to the nearest multiple of 10^-n
    (tie-breaking differs from CPython bankers rounding only on exact ties,
    which none of the verified properties depend on).
-/

/-- Python substring prefix test on character lists (str.startswith). -/
def lcIsPrefixOf : List Char → List Char → Bool
  | [], _ => true
  | _ :: _, [] => false
  | a :: as_, b :: bs => a == b && lcIsPrefixOf as_ bs

/-- Python membership test needle in hay for character lists. -/
def lcContains (needle : List Char) : List Char → Bool
  | [] => lcIsPrefixOf needle []
  | c :: t => lcIsPrefixOf needle (c :: t) || lcContains needle t

/-- Python str.startswith. -/
def pyStartsWith (s pre : String) : Bool :=
  lcIsPrefixOf pre.toList s.toList

/-- Python needle in hay on strings. -/
def pyIn (needle hay : String) : Bool :=
  lcContains needle.toList hay.toList

/-- Python str.lower (ASCII behaviour, which is all the sources use). -/
def pyLower (s : String) : String :=
  String.map Char.toLower s

/-- Python round(x, ndigits) on a float, modelled exactly on ℚ. -/
def pyRound (x : ℚ) (ndigits : ℕ) : ℚ :=
  let m : ℚ := (10 : ℚ) ^ ndigits
  ((round (x * m) : ℤ) : ℚ) / m

/-- Python dict.get(key, default) over an association-list model of a dict. -/
def dictGetD (m : List (String × ℚ)) (k : String) (d : ℚ) : ℚ :=
  match m.find? (fun p => p.1 == k) with
  | some p => p.2
  | none => d

/-
  transaction_risk_scoring.py — TransactionRiskScorer.

  The scorer state keeps the three entity risk maps built from the training
  data frame (fraud-rate means) and the two optional models.  rf_model is the
  predict_proba oracle (none = attribute is None); its inner Option models the
  try/except around prediction.  iso_model bundles the iso_model/scaler pair
  from the source (the code guards on both being set); its oracle returns the
  raw value -score_samples(...)[0] before normalisation, none = exception.
-/

structure Transaction where
  amount : ℚ
  hour : ℕ
  deviceId : Option String
  ipAddress : Option String
  payerVpa : Option String
  trnStatus : String

structure TransactionRiskScorer where
  device_risk_scores : List (String × ℚ)
  ip_risk_scores : List (String × ℚ)
  vpa_risk_scores : List (String × ℚ)
  rf_model : Option (Transaction → Option ℚ)
  iso_model : Option (Transaction → Option ℚ)

/-- get_time_risk: risk based on the hour of day. -/
def get_time_risk (hour : ℕ) : ℚ :=
  if hour < 6 then 0.8
  else if 22 ≤ hour ∧ hour < 24 then 0.6
  else if 6 ≤ hour ∧ hour < 8 then 0.4
  else 0.2

/-- get_amount_risk: risk based on the transaction amount. -/
def get_amount_risk (amount : ℚ) : ℚ :=
  if amount < 10 then 0.7
  else if amount > 10000 then 0.6
  else if amount > 5000 then 0.4
  else 0.2

/-- get_device_risk: self.device_risk_scores.get(device_id, 0.3). -/
def get_device_risk (s : TransactionRiskScorer) (device_id : String) : ℚ :=
  dictGetD s.device_risk_scores device_id 0.3

/-- get_ip_risk: self.ip_risk_scores.get(ip_address, 0.3). -/
def get_ip_risk (s : TransactionRiskScorer) (ip_address : String) : ℚ :=
  dictGetD s.ip_risk_scores ip_address 0.3

/-- get_vpa_risk: self.vpa_risk_scores.get(vpa, 0.3). -/
def get_vpa_risk (s : TransactionRiskScorer) (vpa : String) : ℚ :=
  dictGetD s.vpa_risk_scores vpa 0.3

structure RiskComponents where
  time_risk : ℚ
  amount_risk : ℚ
  device_risk : ℚ
  ip_risk : ℚ
  vpa_risk : ℚ
  status_risk : ℚ
  ml_risk : ℚ
  anomaly_score : ℚ
deriving DecidableEq

structure RiskResult where
  risk_score : ℚ
  risk_level : String
  components : RiskComponents
deriving DecidableEq

/-- The eight sub-scores computed by calculate_risk_score before fusion. -/
def tx_components (s : TransactionRiskScorer) (t : Transaction) : RiskComponents :=
  { time_risk := get_time_risk t.hour
    amount_risk := get_amount_risk t.amount
    device_risk := match t.deviceId with
      | some d => get_device_risk s d
      | none => 0.3
    ip_risk := match t.ipAddress with
      | some ip => get_ip_risk s ip
      | none => 0.3
    vpa_risk := match t.payerVpa with
      | some v => get_vpa_risk s v
      | none => 0.3
    status_risk := if t.trnStatus == "FAILED" then 0.7 else 0.2
    ml_risk := match s.rf_model with
      | none => 0.0
      | some f => match f t with
        | some p => p
        | none => 0.3
    anomaly_score := match s.iso_model with
      | none => 0.0
      | some f => match f t with
        | some a => min (max (a / 0.5) 0) 1
        | none => 0.3 }

/-- Risk-level thresholds of calculate_risk_score. -/
def risk_level_of (x : ℚ) : String :=
  if x < 3 then "LOW" else if x < 7 then "MEDIUM" else "HIGH"

/-- calculate_risk_score: weighted fusion of the sub-scores, scaled to 0-10. -/
def calculate_risk_score (s : TransactionRiskScorer) (t : Transaction) : RiskResult :=
  let comp := tx_components s t
  let combined_risk :=
    0.15 * comp.time_risk + 0.20 * comp.amount_risk + 0.15 * comp.device_risk +
    0.10 * comp.ip_risk + 0.15 * comp.vpa_risk + 0.10 * comp.status_risk +
    0.10 * comp.ml_risk + 0.05 * comp.anomaly_score
  let risk_score := combined_risk * 10
  { risk_score := risk_score
    risk_level := risk_level_of risk_score
    components := comp }

/-
  enhanced_qr_scanner.py — heuristics, features, ML fallback, cache, analysis.
-/

/-- urlparse(url).netloc for http:// or https:// URLs: the text between the
scheme separator and the next one of the characters slash, question mark or
hash.  (Bracketed IPv6 validation of urllib is not modelled; no claim depends
on it.) -/
def urlNetloc (url : String) : String :=
  let rest :=
    if pyStartsWith url "https://" then url.toList.drop 8
    else if pyStartsWith url "http://" then url.toList.drop 7
    else []
  String.mk (rest.takeWhile (fun c => c != '/' && c != '?' && c != '#'))

/-- One group of the regular expression d+.d+.d+.d+ : a nonempty digit run
followed by a literal dot; returns the remainder on success. -/
def digitsThenDot (l : List Char) : Option (List Char) :=
  let ds := l.takeWhile Char.isDigit
  if ds == [] then none
  else match l.drop ds.length with
    | '.' :: rest => some rest
    | _ => none

/-- re.match of d+.d+.d+.d+ anchored at the start of l. -/
def matchIpv4Prefix (l : List Char) : Bool :=
  match digitsThenDot l with
  | none => false
  | some l1 =>
    match digitsThenDot l1 with
    | none => false
    | some l2 =>
      match digitsThenDot l2 with
      | none => false
      | some l3 => (l3.takeWhile Char.isDigit) != []

/-- re.match of https?://d+.d+.d+.d+ against url (apply_heuristic_checks,
line 177). -/
def reMatchIpUrl (url : String) : Bool :=
  if pyStartsWith url "https://" then matchIpv4Prefix (url.toList.drop 8)
  else if pyStartsWith url "http://" then matchIpv4Prefix (url.toList.drop 7)
  else false

/-- re.search of pa=([^&]+) : scan left to right for an occurrence of pa=
followed by at least one character other than ampersand; the captured group is
the maximal such run. -/
def findPaMatch : List Char → Option (List Char)
  | [] => none
  | c :: t =>
    if lcIsPrefixOf ("pa=".toList) (c :: t) then
      let v := ((c :: t).drop 3).takeWhile (fun x => x != '&')
      if v == [] then findPaMatch t else some v
    else findPaMatch t

structure HeuristicResult where
  is_suspicious : Bool
  reasons : List String
deriving DecidableEq

def upi_suspicious_keywords : List String :=
  ["urgent", "verify", "kyc", "block", "expire", "update", "limited"]

def upi_id_suspicious_words : List String :=
  ["verify", "kyc", "urgent", "alert"]

def upi_suspicious_domains : List String :=
  ["verification", "alert", "secure", "update", "block"]

def shortened_url_domains : List String :=
  ["bit.ly", "goo.gl", "tinyurl.com", "t.co", "is.gd", "cli.gs", "ow.ly"]

def url_suspicious_keywords : List String :=
  ["login", "verify", "account", "secure", "banking", "update", "password"]

/-- apply_heuristic_checks: rule-based checks on a UPI or URL payload.  Every
branch of the source that appends a reason also sets is_suspicious, and
nothing else sets it, so is_suspicious equals "the reason list is nonempty".
The reason strings follow the source f-strings with the decorative quote
characters around interpolated values elided. -/
def apply_heuristic_checks (url : String) : HeuristicResult :=
  if pyStartsWith url "upi://" then
    let kwReasons :=
      (upi_suspicious_keywords.filter (fun k => pyIn k (pyLower url))).map
        (fun k => "Suspicious keyword in UPI: " ++ k)
    let idReasons :=
      if pyIn "@" url then
        match findPaMatch url.toList with
        | some v =>
          let upi_id := String.mk v
          let r1 :=
            if upi_id_suspicious_words.any (fun w => pyIn w (pyLower upi_id)) then
              ["Suspicious UPI ID: " ++ upi_id]
            else []
          let r2 :=
            if pyIn "@" upi_id then
              let domain :=
                match upi_id.splitOn "@" with
                | _ :: d :: _ => d
                | _ => ""
              if upi_suspicious_domains.any (fun w => pyIn w (pyLower domain)) then
                ["Suspicious UPI domain: " ++ domain]
              else []
            else []
          r1 ++ r2
        | none => []
      else []
    let reasons := kwReasons ++ idReasons
    ⟨reasons != [], reasons⟩
  else if pyStartsWith url "http://" || pyStartsWith url "https://" then
    let domain := urlNetloc url
    let r1 :=
      if shortened_url_domains.any (fun d => domain == d) then
        ["Shortened URL detected: " ++ domain]
      else []
    let r2 := if pyStartsWith url "http://" then ["Non-secure HTTP connection"] else []
    let r3 :=
      (url_suspicious_keywords.filter (fun k => pyIn k (pyLower url))).map
        (fun k => "Suspicious keyword in URL: " ++ k)
    let r4 := if reMatchIpUrl url then ["IP address used instead of domain name"] else []
    let reasons := r1 ++ r2 ++ r3 ++ r4
    ⟨reasons != [], reasons⟩
  else ⟨false, []⟩

/-- predict_with_ml: probability that the text is a scam.  The model argument
is the module-level text_model (none = never loaded or trained); the oracle
returning none models predict_proba raising. -/
def predict_with_ml (text_model : Option (String → Option ℚ)) (qr_text : String) : ℚ :=
  match text_model with
  | none => 0.5
  | some f =>
    match f qr_text with
    | some p => p
    | none => 0.5

structure SafeBrowsingResult where
  checked : Bool
  -- the source dict key for this field reads is_ plus the word unsafe
  unsafe_flag : Bool
deriving DecidableEq

/-
  diskcache.Cache modelled as an association list of (key, value, deadline):
  cache.set(k, v, expire=ttl) at time now stores deadline now + ttl; get
  returns the value while now < deadline and behaves as a miss afterwards;
  delete removes the entry.
-/

def cacheGet {α : Type} (c : List (String × α × ℚ)) (k : String) (now : ℚ) : Option α :=
  match c.find? (fun e => e.1 == k) with
  | some e => if now < e.2.2 then some e.2.1 else none
  | none => none

def cacheSet {α : Type} (c : List (String × α × ℚ)) (k : String) (v : α)
    (deadline : ℚ) : List (String × α × ℚ) :=
  (k, v, deadline) :: c.filter (fun e => e.1 != k)

def cacheDelete {α : Type} (c : List (String × α × ℚ)) (k : String) :
    List (String × α × ℚ) :=
  c.filter (fun e => e.1 != k)

/-- The analysis sub-dictionary of an analyze_qr result. -/
structure QRAnalysis where
  ml_score : ℚ
  heuristic_flags : ℕ
  safe_browsing_check : Bool
  sb_unsafe_flag : Bool
deriving DecidableEq

/-- An analyze_qr result dictionary.  analysis and qr_type are absent (none)
only in the early empty-input result; a missing cached key is falsy in the
source and is modelled as cached = false. -/
structure QRResult where
  risk_score : ℚ
  risk_level : String
  reasons : List String
  analysis : Option QRAnalysis
  qr_type : Option String
  latency_ms : ℚ
  cached : Bool
deriving DecidableEq

/-- The early result for empty QR content (analyze_qr, lines 330-336). -/
def emptyQRResult : QRResult :=
  { risk_score := 0
    risk_level := "unknown"
    reasons := ["Empty QR content"]
    analysis := none
    qr_type := none
    latency_ms := 0
    cached := false }

/-- The safe-browsing result actually used by analyze_qr: the API is only
consulted for http/https payloads, otherwise the default unchecked/safe value
stands.  sb is the oracle for check_safe_browsing_api. -/
def qr_sbr (sb : String → SafeBrowsingResult) (qr_text : String) : SafeBrowsingResult :=
  if pyStartsWith qr_text "http://" || pyStartsWith qr_text "https://" then sb qr_text
  else ⟨false, false⟩

/-- base_risk after conversion of the ML score to the 0-100 scale. -/
def qr_base0 (text_model : Option (String → Option ℚ)) (qr_text : String) : ℚ :=
  predict_with_ml text_model qr_text * 100

/-- base_risk after the heuristic penalty (capped at 40, 10 per flag). -/
def qr_base1 (text_model : Option (String → Option ℚ)) (qr_text : String) : ℚ :=
  let h := apply_heuristic_checks qr_text
  if h.is_suspicious then
    min 100 (qr_base0 text_model qr_text + min 40 ((h.reasons.length : ℚ) * 10))
  else qr_base0 text_model qr_text

/-- base_risk after the Safe Browsing floor of 90. -/
def qr_base2 (text_model : Option (String → Option ℚ)) (sb : String → SafeBrowsingResult)
    (qr_text : String) : ℚ :=
  if (qr_sbr sb qr_text).unsafe_flag then max 90 (qr_base1 text_model qr_text)
  else qr_base1 text_model qr_text

/-- base_risk after the UPI safety discount of 30 for non-suspicious UPI
payloads: the final fused score before rounding. -/
def qr_base3 (text_model : Option (String → Option ℚ)) (sb : String → SafeBrowsingResult)
    (qr_text : String) : ℚ :=
  if pyStartsWith qr_text "upi://" && !(apply_heuristic_checks qr_text).is_suspicious then
    max 0 (qr_base2 text_model sb qr_text - 30)
  else qr_base2 text_model sb qr_text

/-- Risk-level thresholds of analyze_qr. -/
def qr_risk_level_of (base_risk : ℚ) : String :=
  if base_risk ≥ 70 then "high" else if base_risk ≥ 30 then "medium" else "low"

/-- The final reasons list of analyze_qr: the heuristic reasons, plus the Safe
Browsing reason, plus the explanatory reason for clean low-risk payloads. -/
def qr_reasons (text_model : Option (String → Option ℚ)) (sb : String → SafeBrowsingResult)
    (qr_text : String) : List String :=
  let h := apply_heuristic_checks qr_text
  let reasons1 :=
    if (qr_sbr sb qr_text).unsafe_flag then h.reasons ++ ["Flagged by Safe Browsing API"]
    else h.reasons
  if reasons1 = [] ∧ qr_base3 text_model sb qr_text < 30 then
    if pyStartsWith qr_text "upi://" then ["Legitimate UPI payment QR"]
    else if pyStartsWith qr_text "https://" then ["No suspicious patterns detected"]
    else []
  else reasons1

/-- The computation branch of analyze_qr for nonempty uncached input.  Note
the aliasing in the source: the local reasons list is the same object as
heuristic_result[reasons], so heuristic_flags (computed last) counts the
final reasons list, appended entries included.  elapsed_ms stands for the
wall-clock latency measurement. -/
def analyze_qr_compute (text_model : Option (String → Option ℚ))
    (sb : String → SafeBrowsingResult) (elapsed_ms : ℚ) (qr_text : String) : QRResult :=
  { risk_score := pyRound (qr_base3 text_model sb qr_text) 1
    risk_level := qr_risk_level_of (qr_base3 text_model sb qr_text)
    reasons := qr_reasons text_model sb qr_text
    analysis := some
      { ml_score := pyRound (predict_with_ml text_model qr_text) 3
        heuristic_flags := (qr_reasons text_model sb qr_text).length
        safe_browsing_check := (qr_sbr sb qr_text).checked
        sb_unsafe_flag := (qr_sbr sb qr_text).unsafe_flag }
    qr_type := some
      (if pyStartsWith qr_text "upi://" then "upi"
       else if pyStartsWith qr_text "http" then "url"
       else "text")
    latency_ms := elapsed_ms
    cached := false }

/-- analyze_qr over the explicit cache state: cache lookup first (a hit is
returned with cached set), then the empty-input early return, then the full
computation, whose result is cached for 300 seconds. -/
def analyze_qr (text_model : Option (String → Option ℚ))
    (sb : String → SafeBrowsingResult) (c : List (String × QRResult × ℚ))
    (now elapsed_ms : ℚ) (qr_text : String) :
    QRResult × List (String × QRResult × ℚ) :=
  let cache_key := "qr:" ++ qr_text
  match cacheGet c cache_key now with
  | some r => ({ r with cached := true }, c)
  | none =>
    if qr_text == "" then (emptyQRResult, c)
    else
      let result := analyze_qr_compute text_model sb elapsed_ms qr_text
      (result, cacheSet c cache_key result (now + 300))

/-- A stored feedback training example of the enhanced scanner. -/
structure QRTrainingExample where
  text : String
  label : ℕ
  reason : Option String
deriving DecidableEq

/-- The feedback route of the enhanced scanner: appends the labelled example
to the training data, (possibly) retrains the text model, and deletes the
cache entry qr:qr_text.  Retraining mutates only the module-level model
(an oracle in this embedding), so the returned state is the data log and the
cache. -/
def enhanced_feedback (data : List QRTrainingExample)
    (c : List (String × QRResult × ℚ)) (qr_text : String) (is_scam : Bool)
    (reason : Option String) :
    List QRTrainingExample × List (String × QRResult × ℚ) :=
  let data2 := data ++ [⟨qr_text, if is_scam then 1 else 0, reason⟩]
  (data2, cacheDelete c ("qr:" ++ qr_text))

/-- The per-item placeholder produced by batch_predict when analysing one
item raises (lines 465-471). -/
structure BatchErrorItem where
  qr_text : String
  error : String
  risk_score : ℚ
  risk_level : String

def batch_error_item (qr_text error : String) : BatchErrorItem :=
  { qr_text := qr_text, error := error, risk_score := 50, risk_level := "unknown" }

/-
  enhanced_qr_scanner.py — extract_features.  Python exceptions are modelled
  with Except: the only fallible primitive reachable in the function body is
  division, embedded as cdiv, which fails exactly when the divisor is zero.
-/

def b2i (b : Bool) : ℕ := if b then 1 else 0

structure OptFeatures where
  length : ℕ
  has_upi : ℕ
  num_params : ℕ
  urgent : ℕ
  payment : ℕ
  currency : ℕ
deriving DecidableEq

/-- extract_features of the optimized scanner (lines 58-67); the has_upi
regex re.search of the start-anchored upi:// on the lowered text is a
startswith test. -/
def opt_extract_features (qr_text : String) : OptFeatures :=
  let qr_lower := pyLower qr_text
  { length := min qr_text.length 100
    has_upi := b2i (pyStartsWith qr_lower "upi://")
    num_params := qr_text.toList.count '&'
    urgent := b2i (pyIn "urgent" qr_lower)
    payment := b2i (pyIn "payment" qr_lower)
    currency := b2i (pyIn "inr" qr_lower) }

structure OptResult where
  risk_score : ℚ
  latency_ms : ℚ
  features : OptFeatures
  cached : Bool
deriving DecidableEq

/-- The model probability with the fallback of 0.5 when predict_proba raises
(optimized predict, lines 87-90). -/
def opt_model_proba (model : OptFeatures → Option ℚ) (features : OptFeatures) : ℚ :=
  match model features with
  | some p => p
  | none => 0.5

/-- The computation branch of the optimized /predict route for uncached
input: model probability (with its 0.5 fallback), the UPI safety boost, and
clamping to the 0-100 scale. -/
def opt_compute (model : OptFeatures → Option ℚ) (elapsed_ms : ℚ)
    (qr_text : String) : OptResult :=
  let features := opt_extract_features qr_text
  let proba := opt_model_proba model features
  let risk0 := pyRound (proba * 100) 2
  let upi_safe_boost : ℚ :=
    if features.has_upi ≠ 0 then
      if features.payment ≠ 0 ∧ features.urgent = 0 then -15 else -25
    else 0
  { risk_score := max 0 (min 100 (risk0 + upi_safe_boost))
    latency_ms := elapsed_ms
    features := features
    cached := false }

/-- The /predict route of the optimized scanner over the explicit cache: a
cache hit is returned with cached set, a miss computes and stores the result
for 300 seconds under the raw text as key. -/
def opt_predict (model : OptFeatures → Option ℚ) (c : List (String × OptResult × ℚ))
    (now elapsed_ms : ℚ) (qr_text : String) : OptResult × List (String × OptResult × ℚ) :=
  match cacheGet c qr_text now with
  | some r => ({ r with cached := true }, c)
  | none =>
    let result := opt_compute model elapsed_ms qr_text
    (result, cacheSet c qr_text result (now + 300))

/-- The training data of the optimized scanner. -/
structure OptData where
  X : List OptFeatures
  y : List ℕ
deriving DecidableEq

/-- The /feedback route of the optimized scanner (lines 112-126): appends the
example and possibly retrains (the model is an oracle here); it performs no
cache operation whatsoever. -/
def opt_feedback (d : OptData) (qr_text : String) (is_scam : Bool) : OptData :=
  { X := d.X ++ [opt_extract_features qr_text]
    y := d.y ++ [if is_scam then 1 else 0] }

/-- The full optimized-scanner state transition of a feedback call: the
handler touches only the training data; the cache passes through unchanged. -/
def opt_feedback_state (d : OptData) (c : List (String × OptResult × ℚ))
    (qr_text : String) (is_scam : Bool) : OptData × List (String × OptResult × ℚ) :=
  (opt_feedback d qr_text is_scam, c)

/-
  scam_model.py — QRScamModel.
-/

/-- re.match of the anchored VALID_UPI_REGEX: 3-256 characters from
letters/digits/dot/hyphen, an at-sign, then 3-64 letters to the end.  The
at-sign is outside the first character class, so the handle part is exactly
the text before the first at-sign. -/
def validVpa (vpa : String) : Bool :=
  let l := vpa.toList
  let handle := l.takeWhile (fun c => c != '@')
  match l.drop handle.length with
  | '@' :: provider =>
    (3 ≤ handle.length && handle.length ≤ 256) &&
    handle.all (fun c => c.isAlphanum || c == '.' || c == '-') &&
    provider.all Char.isAlpha &&
    (3 ≤ provider.length && provider.length ≤ 64)
  | _ => false

structure ScamPrediction where
  probability : ℚ
  label : String
  reason : String
deriving DecidableEq

/-- QRScamModel state: is_trained plus the predict_proba oracle of the
random-forest model for a formatted (vpa, amount, raw_text) input. -/
structure QRScamModel where
  is_trained : Bool
  proba : String → ℚ → String → ℚ

/-- _rule_based_check: fallback detection when the model is untrained. -/
def rule_based_check (bene_vpa raw_text : String) : ScamPrediction :=
  if !validVpa bene_vpa then
    { probability := 0.9, label := "Scam", reason := "Invalid UPI syntax" }
  else if ["urgent", "verify", "login", "kyc", "block", "expired"].any
      (fun k => pyIn k (pyLower raw_text)) then
    { probability := 0.8, label := "Scam", reason := "Contains suspicious keywords" }
  else
    { probability := 0.2, label := "Safe", reason := "No suspicious patterns detected" }

/-- QRScamModel.predict for a single QR code. -/
def qrscam_predict (m : QRScamModel) (bene_vpa : String) (amount : ℚ)
    (raw_text : String) : ScamPrediction :=
  if !m.is_trained then rule_based_check bene_vpa raw_text
  else
    let p := m.proba bene_vpa amount raw_text
    { probability := p
      label := if p > 0.65 then "Scam" else "Safe"
      reason :=
        if p > 0.65 then "ML model detected suspicious patterns"
        else "QR code appears legitimate" }

/-
  Concrete fixtures used by witnesses and counterexamples.
-/

/-- A scorer with empty entity maps and no models loaded. -/
def s0w : TransactionRiskScorer :=
  { device_risk_scores := [], ip_risk_scores := [], vpa_risk_scores := []
    rf_model := none, iso_model := none }

/-- A plain completed transaction. -/
def t0w : Transaction :=
  { amount := 5000, hour := 2, deviceId := none, ipAddress := none
    payerVpa := none, trnStatus := "COMPLETED" }

/-- A Safe Browsing oracle that never flags. -/
def sbNone : String → SafeBrowsingResult := fun _ => ⟨false, false⟩

/-- A Safe Browsing oracle that always flags. -/
def sbFlag : String → SafeBrowsingResult := fun _ => ⟨true, true⟩

/-- An untrained scam model whose oracle is the constant zero. -/
def mScamUntrained : QRScamModel := { is_trained := false, proba := fun _ _ _ => 0 }

/-
  Bound lemmas for the transaction sub-scores.
-/

theorem get_time_risk_bounds (hour : ℕ) :
    0 ≤ get_time_risk hour ∧ get_time_risk hour ≤ 1 := by
  unfold get_time_risk; split_ifs <;> norm_num

theorem get_amount_risk_bounds (amount : ℚ) :
    0 ≤ get_amount_risk amount ∧ get_amount_risk amount ≤ 1 := by
  unfold get_amount_risk; split_ifs <;> norm_num

theorem dictGetD_bounds (m : List (String × ℚ)) (k : String)
    (hm : ∀ p ∈ m, 0 ≤ p.2 ∧ p.2 ≤ 1) :
    0 ≤ dictGetD m k 0.3 ∧ dictGetD m k 0.3 ≤ 1 := by
  unfold dictGetD
  cases hf : m.find? (fun p => p.1 == k) with
  | none => norm_num
  | some p => exact hm p (List.mem_of_find?_eq_some hf)

theorem dictGetD_eq_default (m : List (String × ℚ)) (k : String) (d : ℚ)
    (h : ∀ p ∈ m, p.1 ≠ k) : dictGetD m k d = d := by
  unfold dictGetD
  cases hf : m.find? (fun p => p.1 == k) with
  | none => rfl
  | some p =>
    have hm := List.mem_of_find?_eq_some hf
    have hk := List.find?_some hf
    simp only [beq_iff_eq] at hk
    exact absurd hk (h p hm)

theorem tx_time_eq (s : TransactionRiskScorer) (t : Transaction) :
    (tx_components s t).time_risk = get_time_risk t.hour := rfl

theorem tx_amount_eq (s : TransactionRiskScorer) (t : Transaction) :
    (tx_components s t).amount_risk = get_amount_risk t.amount := rfl

theorem tx_device_bounds (s : TransactionRiskScorer) (t : Transaction)
    (hdev : ∀ p ∈ s.device_risk_scores, 0 ≤ p.2 ∧ p.2 ≤ 1) :
    0 ≤ (tx_components s t).device_risk ∧ (tx_components s t).device_risk ≤ 1 := by
  cases hd : t.deviceId with
  | none =>
    have e : (tx_components s t).device_risk = 0.3 := by simp [tx_components, hd]
    rw [e]; norm_num
  | some d =>
    have e : (tx_components s t).device_risk = get_device_risk s d := by
      simp [tx_components, hd]
    rw [e]; exact dictGetD_bounds _ _ hdev

theorem tx_ip_bounds (s : TransactionRiskScorer) (t : Transaction)
    (hip : ∀ p ∈ s.ip_risk_scores, 0 ≤ p.2 ∧ p.2 ≤ 1) :
    0 ≤ (tx_components s t).ip_risk ∧ (tx_components s t).ip_risk ≤ 1 := by
  cases hd : t.ipAddress with
  | none =>
    have e : (tx_components s t).ip_risk = 0.3 := by simp [tx_components, hd]
    rw [e]; norm_num
  | some ip =>
    have e : (tx_components s t).ip_risk = get_ip_risk s ip := by
      simp [tx_components, hd]
    rw [e]; exact dictGetD_bounds _ _ hip

theorem tx_vpa_bounds (s : TransactionRiskScorer) (t : Transaction)
    (hvpa : ∀ p ∈ s.vpa_risk_scores, 0 ≤ p.2 ∧ p.2 ≤ 1) :
    0 ≤ (tx_components s t).vpa_risk ∧ (tx_components s t).vpa_risk ≤ 1 := by
  cases hd : t.payerVpa with
  | none =>
    have e : (tx_components s t).vpa_risk = 0.3 := by simp [tx_components, hd]
    rw [e]; norm_num
  | some v =>
    have e : (tx_components s t).vpa_risk = get_vpa_risk s v := by
      simp [tx_components, hd]
    rw [e]; exact dictGetD_bounds _ _ hvpa

theorem tx_status_bounds (s : TransactionRiskScorer) (t : Transaction) :
    0 ≤ (tx_components s t).status_risk ∧ (tx_components s t).status_risk ≤ 1 := by
  have e : (tx_components s t).status_risk =
      (if t.trnStatus == "FAILED" then (0.7 : ℚ) else 0.2) := rfl
  rw [e]; split_ifs <;> norm_num

theorem tx_ml_bounds (s : TransactionRiskScorer) (t : Transaction)
    (hrf : ∀ f p, s.rf_model = some f → f t = some p → 0 ≤ p ∧ p ≤ 1) :
    0 ≤ (tx_components s t).ml_risk ∧ (tx_components s t).ml_risk ≤ 1 := by
  cases hm : s.rf_model with
  | none =>
    have e : (tx_components s t).ml_risk = 0.0 := by simp [tx_components, hm]
    rw [e]; norm_num
  | some f =>
    cases hft : f t with
    | none =>
      have e : (tx_components s t).ml_risk = 0.3 := by simp [tx_components, hm, hft]
      rw [e]; norm_num
    | some p =>
      have e : (tx_components s t).ml_risk = p := by simp [tx_components, hm, hft]
      rw [e]; exact hrf f p hm hft

theorem tx_anomaly_bounds (s : TransactionRiskScorer) (t : Transaction) :
    0 ≤ (tx_components s t).anomaly_score ∧ (tx_components s t).anomaly_score ≤ 1 := by
  cases hm : s.iso_model with
  | none =>
    have e : (tx_components s t).anomaly_score = 0.0 := by simp [tx_components, hm]
    rw [e]; norm_num
  | some f =>
    cases hft : f t with
    | none =>
      have e : (tx_components s t).anomaly_score = 0.3 := by
        simp [tx_components, hm, hft]
      rw [e]; norm_num
    | some a =>
      have e : (tx_components s t).anomaly_score = min (max (a / 0.5) 0) 1 := by
        simp [tx_components, hm, hft]
      rw [e]
      exact ⟨le_min (le_max_right _ _) (by norm_num), min_le_right _ _⟩

/-- C1: for every structured transaction the fused risk score of
calculate_risk_score lies in the 0-10 scale (the fixed weights sum to 1 over
sub-scores each bounded in the unit interval), and the returned risk level is
the pure thresholded function of the returned score: LOW below 3, MEDIUM
below 7, HIGH otherwise.  The hypotheses state the invariants of the inputs
the scorer is built from: the entity maps hold fraud-rate means in the unit
interval, and the random-forest oracle is a probability. -/
theorem C1_calculate_risk_score_scale_and_level
    (s : TransactionRiskScorer) (t : Transaction)
    (hdev : ∀ p ∈ s.device_risk_scores, 0 ≤ p.2 ∧ p.2 ≤ 1)
    (hip : ∀ p ∈ s.ip_risk_scores, 0 ≤ p.2 ∧ p.2 ≤ 1)
    (hvpa : ∀ p ∈ s.vpa_risk_scores, 0 ≤ p.2 ∧ p.2 ≤ 1)
    (hrf : ∀ f p, s.rf_model = some f → f t = some p → 0 ≤ p ∧ p ≤ 1) :
    0 ≤ (calculate_risk_score s t).risk_score ∧
    (calculate_risk_score s t).risk_score ≤ 10 ∧
    (calculate_risk_score s t).risk_level =
      (if (calculate_risk_score s t).risk_score < 3 then "LOW"
       else if (calculate_risk_score s t).risk_score < 7 then "MEDIUM"
       else "HIGH") := by
  obtain ⟨a1, b1⟩ := get_time_risk_bounds t.hour
  obtain ⟨a2, b2⟩ := get_amount_risk_bounds t.amount
  obtain ⟨a3, b3⟩ := tx_device_bounds s t hdev
  obtain ⟨a4, b4⟩ := tx_ip_bounds s t hip
  obtain ⟨a5, b5⟩ := tx_vpa_bounds s t hvpa
  obtain ⟨a6, b6⟩ := tx_status_bounds s t
  obtain ⟨a7, b7⟩ := tx_ml_bounds s t hrf
  obtain ⟨a8, b8⟩ := tx_anomaly_bounds s t
  rw [← tx_time_eq s t] at a1 b1
  rw [← tx_amount_eq s t] at a2 b2
  have escore : (calculate_risk_score s t).risk_score =
      (0.15 * (tx_components s t).time_risk + 0.20 * (tx_components s t).amount_risk +
       0.15 * (tx_components s t).device_risk + 0.10 * (tx_components s t).ip_risk +
       0.15 * (tx_components s t).vpa_risk + 0.10 * (tx_components s t).status_risk +
       0.10 * (tx_components s t).ml_risk +
       0.05 * (tx_components s t).anomaly_score) * 10 := rfl
  refine ⟨?_, ?_, ?_⟩
  · rw [escore]; nlinarith
  · rw [escore]; nlinarith
  · show risk_level_of ((calculate_risk_score s t).risk_score) = _
    unfold risk_level_of
    rfl

/-- Witness for C1 at a concrete scorer and transaction. -/
theorem C1_witness :
    0 ≤ (calculate_risk_score s0w t0w).risk_score ∧
    (calculate_risk_score s0w t0w).risk_score ≤ 10 ∧
    (calculate_risk_score s0w t0w).risk_level =
      (if (calculate_risk_score s0w t0w).risk_score < 3 then "LOW"
       else if (calculate_risk_score s0w t0w).risk_score < 7 then "MEDIUM"
       else "HIGH") :=
  C1_calculate_risk_score_scale_and_level s0w t0w
    (by simp [s0w]) (by simp [s0w]) (by simp [s0w])
    (by intro f p hf; simp [s0w] at hf)

/-- C7: an entity identifier absent from the corresponding risk-profile map
(device, IP, or VPA) looks up to the fixed neutral default fraud ratio 0.3;
the lookup is total, so scoring is well defined for first-time entities. -/
theorem C7_unknown_entity_default_ratio
    (s : TransactionRiskScorer) (d ip v : String)
    (hd : ∀ p ∈ s.device_risk_scores, p.1 ≠ d)
    (hi : ∀ p ∈ s.ip_risk_scores, p.1 ≠ ip)
    (hv : ∀ p ∈ s.vpa_risk_scores, p.1 ≠ v) :
    get_device_risk s d = 0.3 ∧ get_ip_risk s ip = 0.3 ∧ get_vpa_risk s v = 0.3 :=
  ⟨dictGetD_eq_default _ _ _ hd, dictGetD_eq_default _ _ _ hi,
   dictGetD_eq_default _ _ _ hv⟩

/-- Witness for C7 on the empty-map scorer at concrete unseen identifiers. -/
theorem C7_witness :
    get_device_risk s0w "dev-1" = 0.3 ∧ get_ip_risk s0w "10.0.0.1" = 0.3 ∧
    get_vpa_risk s0w "a@b" = 0.3 :=
  C7_unknown_entity_default_ratio s0w "dev-1" "10.0.0.1" "a@b"
    (by simp [s0w]) (by simp [s0w]) (by simp [s0w])

/-- C10: QRScamModel.predict returns a probability in the unit interval and a
label that is Scam exactly when that probability exceeds 0.65, on the trained
path (where the random-forest oracle is a probability) and on the untrained
rule-based path. -/
theorem C10_qrscam_predict_probability_label
    (m : QRScamModel) (hp : ∀ v a r, 0 ≤ m.proba v a r ∧ m.proba v a r ≤ 1)
    (v : String) (a : ℚ) (r : String) :
    0 ≤ (qrscam_predict m v a r).probability ∧
    (qrscam_predict m v a r).probability ≤ 1 ∧
    ((qrscam_predict m v a r).label = "Scam" ↔
      0.65 < (qrscam_predict m v a r).probability) := by
  unfold qrscam_predict
  cases hm : m.is_trained with
  | false =>
    simp only [Bool.not_false, if_true]
    unfold rule_based_check
    split_ifs with hh1 hh2 <;> refine ⟨by norm_num, by norm_num, ?_⟩ <;>
      simp <;> norm_num
  | true =>
    simp only [Bool.not_true, if_false]
    obtain ⟨ha, hb⟩ := hp v a r
    by_cases hgt : (0.65 : ℚ) < m.proba v a r
    · simp only [if_pos hgt]
      exact ⟨ha, hb, by simpa using hgt⟩
    · simp only [if_neg hgt]
      refine ⟨ha, hb, ?_⟩
      constructor
      · intro h
        exact absurd h (by simp)
      · intro h
        exact absurd h hgt

/-- Witness for C10 at a concrete untrained model and input. -/
theorem C10_witness :
    0 ≤ (qrscam_predict mScamUntrained "ab@cde" 5 "hello").probability ∧
    (qrscam_predict mScamUntrained "ab@cde" 5 "hello").probability ≤ 1 ∧
    ((qrscam_predict mScamUntrained "ab@cde" 5 "hello").label = "Scam" ↔
      0.65 < (qrscam_predict mScamUntrained "ab@cde" 5 "hello").probability) :=
  C10_qrscam_predict_probability_label mScamUntrained
    (fun _ _ _ => by norm_num [mScamUntrained]) "ab@cde" 5 "hello"

/-- C6 (amended): the QR scoring paths degrade to the fixed neutral
probability 0.5 — predict_with_ml when the text model is absent or when
predict_proba raises, and the optimized scanner's model probability when
predict_proba raises — while the transaction scorer instead contributes
ml_risk = 0.0 when no random-forest model is loaded and ml_risk = 0.3 when
its prediction raises; in every case scoring completes normally (all the
embedded scoring functions are total). -/
theorem C6_neutral_fallbacks :
    (∀ qr_text, predict_with_ml none qr_text = 0.5) ∧
    (∀ f qr_text, f qr_text = none → predict_with_ml (some f) qr_text = 0.5) ∧
    (∀ model feats, model feats = none → opt_model_proba model feats = 0.5) ∧
    (∀ s t, s.rf_model = none → (calculate_risk_score s t).components.ml_risk = 0) ∧
    (∀ s t f, s.rf_model = some f → f t = none →
      (calculate_risk_score s t).components.ml_risk = 0.3) := by
  refine ⟨fun qr => rfl, ?_, ?_, ?_, ?_⟩
  · intro f qr h
    simp [predict_with_ml, h]
  · intro m ft h
    simp [opt_model_proba, h]
  · intro s t h
    have e : (calculate_risk_score s t).components = tx_components s t := rfl
    rw [e]
    simp only [tx_components, h]
    norm_num
  · intro s t f h1 h2
    have e : (calculate_risk_score s t).components = tx_components s t := rfl
    rw [e]
    simp [tx_components, h1, h2]

/-- Witness for C6 at concrete absent models and a failing oracle. -/
theorem C6_witness :
    predict_with_ml none "upi://x" = 0.5 ∧
    opt_model_proba (fun _ => none) (opt_extract_features "upi://x") = 0.5 ∧
    (calculate_risk_score s0w t0w).components.ml_risk = 0 :=
  ⟨C6_neutral_fallbacks.1 "upi://x",
   C6_neutral_fallbacks.2.2.1 (fun _ => none) (opt_extract_features "upi://x") rfl,
   C6_neutral_fallbacks.2.2.2.1 s0w t0w rfl⟩

/-- Counterexample for C6 as stated: with no trained model available the
transaction scoring path of calculate_risk_score stands in 0, not the fixed
neutral probability 0.5, for the model prediction. -/
theorem C6_counterexample :
    (calculate_risk_score s0w t0w).components.ml_risk = 0 ∧
    (calculate_risk_score s0w t0w).components.ml_risk ≠ 0.5 := by
  have h : (calculate_risk_score s0w t0w).components.ml_risk = 0 := by
    norm_num [calculate_risk_score, tx_components, s0w]
  exact ⟨h, by rw [h]; norm_num⟩

theorem find?_filter_ne {α : Type} (c : List (String × α × ℚ)) (k : String) :
    (c.filter (fun e => e.1 != k)).find? (fun e => e.1 == k) = none := by
  induction c with
  | nil => rfl
  | cons e t ih =>
    simp only [List.filter_cons]
    by_cases h : e.1 = k
    · rw [if_neg (by simp [h])]
      exact ih
    · rw [if_pos (by simp [h])]
      rw [List.find?_cons_of_neg _ (by simp [h])]
      exact ih

theorem cacheGet_delete {α : Type} (c : List (String × α × ℚ)) (k : String) (now : ℚ) :
    cacheGet (cacheDelete c k) k now = none := by
  unfold cacheGet cacheDelete
  rw [find?_filter_ne]

theorem cacheGet_set_self {α : Type} (c : List (String × α × ℚ)) (k : String)
    (v : α) (d now : ℚ) :
    cacheGet (cacheSet c k v d) k now = if now < d then some v else none := by
  unfold cacheGet cacheSet
  rw [List.find?_cons_of_pos _ (by simp)]

theorem lcIsPrefixOf_cons_cons (a b : Char) (as_ bs : List Char) :
    lcIsPrefixOf (a :: as_) (b :: bs) = (a == b && lcIsPrefixOf as_ bs) := rfl

theorem not_upi_of_http (s : String) (h : pyStartsWith s "http://" = true) :
    pyStartsWith s "upi://" = false := by
  unfold pyStartsWith at *
  cases hs : s.toList with
  | nil =>
    rw [hs] at h
    exact absurd h (by decide)
  | cons c t =>
    rw [hs] at h
    have eh : ("http://" : String).toList = ['h', 't', 't', 'p', ':', '/', '/'] := rfl
    have eu : ("upi://" : String).toList = ['u', 'p', 'i', ':', '/', '/'] := rfl
    rw [eh, lcIsPrefixOf_cons_cons, Bool.and_eq_true, beq_iff_eq] at h
    rw [eu, lcIsPrefixOf_cons_cons, ← h.1]
    rfl

theorem not_upi_of_https (s : String) (h : pyStartsWith s "https://" = true) :
    pyStartsWith s "upi://" = false := by
  unfold pyStartsWith at *
  cases hs : s.toList with
  | nil =>
    rw [hs] at h
    exact absurd h (by decide)
  | cons c t =>
    rw [hs] at h
    have eh : ("https://" : String).toList = ['h', 't', 't', 'p', 's', ':', '/', '/'] := rfl
    have eu : ("upi://" : String).toList = ['u', 'p', 'i', ':', '/', '/'] := rfl
    rw [eh, lcIsPrefixOf_cons_cons, Bool.and_eq_true, beq_iff_eq] at h
    rw [eu, lcIsPrefixOf_cons_cons, ← h.1]
    rfl

/-
  analyze_qr unfolding lemmas: cache hit, empty input, cache miss.
-/

theorem analyze_qr_empty (text_model : Option (String → Option ℚ))
    (sb : String → SafeBrowsingResult) (c : List (String × QRResult × ℚ))
    (now elapsed_ms : ℚ) (h : cacheGet c ("qr:" ++ "") now = none) :
    analyze_qr text_model sb c now elapsed_ms "" = (emptyQRResult, c) := by
  simp only [analyze_qr]
  rw [h]
  rfl

theorem analyze_qr_miss (text_model : Option (String → Option ℚ))
    (sb : String → SafeBrowsingResult) (c : List (String × QRResult × ℚ))
    (now elapsed_ms : ℚ) (qr_text : String)
    (h : cacheGet c ("qr:" ++ qr_text) now = none) (hne : qr_text ≠ "") :
    analyze_qr text_model sb c now elapsed_ms qr_text =
      (analyze_qr_compute text_model sb elapsed_ms qr_text,
       cacheSet c ("qr:" ++ qr_text) (analyze_qr_compute text_model sb elapsed_ms qr_text)
         (now + 300)) := by
  simp only [analyze_qr]
  rw [h]
  rw [if_neg (by simpa using hne)]

/-- Monotone lower bound for the one-decimal rounding of analyze_qr. -/
theorem pyRound_one_ge_90 (x : ℚ) (h : 90 ≤ x) : 90 ≤ pyRound x 1 := by
  have e : pyRound x 1 = ((round (x * 10) : ℤ) : ℚ) / 10 := by
    unfold pyRound
    norm_num
  rw [e]
  have hint : (900 : ℤ) ≤ round (x * 10) := by
    rw [round_eq]
    refine Int.le_floor.mpr ?_
    push_cast
    linarith
  have hcast : (900 : ℚ) ≤ ((round (x * 10) : ℤ) : ℚ) := by exact_mod_cast hint
  linarith

/-- C3: when the Safe Browsing check reports the payload unsafe (which the
code only consults for http/https payloads), the final risk score returned by
analyze_qr is at least 90: the floor max(90, base) is applied and the UPI
discount cannot fire because an http(s) payload is not a upi:// payload. -/
theorem C3_safe_browsing_floor
    (tm : Option (String → Option ℚ)) (sb : String → SafeBrowsingResult)
    (c : List (String × QRResult × ℚ)) (now e : ℚ) (qr_text : String)
    (hmiss : cacheGet c ("qr:" ++ qr_text) now = none)
    (hhttp : pyStartsWith qr_text "http://" = true ∨
      pyStartsWith qr_text "https://" = true)
    (hflag : (sb qr_text).unsafe_flag = true) :
    90 ≤ ((analyze_qr tm sb c now e qr_text).1).risk_score := by
  have hne : qr_text ≠ "" := by
    rintro rfl
    rcases hhttp with hq | hq <;> revert hq <;> decide
  rw [analyze_qr_miss tm sb c now e qr_text hmiss hne]
  show 90 ≤ pyRound (qr_base3 tm sb qr_text) 1
  apply pyRound_one_ge_90
  have hnupi : pyStartsWith qr_text "upi://" = false := by
    rcases hhttp with hq | hq
    · exact not_upi_of_http _ hq
    · exact not_upi_of_https _ hq
  have hcond : (pyStartsWith qr_text "http://" || pyStartsWith qr_text "https://") = true := by
    rcases hhttp with hq | hq <;> simp [hq]
  have hsbr : qr_sbr sb qr_text = sb qr_text := by
    simp [qr_sbr, hcond]
  have e3 : qr_base3 tm sb qr_text = qr_base2 tm sb qr_text := by
    unfold qr_base3
    rw [hnupi]
    simp
  rw [e3]
  unfold qr_base2
  rw [hsbr, hflag]
  rw [if_pos rfl]
  exact le_max_left _ _

/-- Witness for C3 at a concrete flagged URL. -/
theorem C3_witness :
    90 ≤ ((analyze_qr none sbFlag [] 0 0 "http://x.com").1).risk_score :=
  C3_safe_browsing_floor none sbFlag [] 0 0 "http://x.com" rfl
    (Or.inl (by decide)) rfl

/-- C4 (amended): every result produced by the scoring computation of
analyze_qr for nonempty input carries a risk level from the three-value scale
low/medium/high; the empty-input result and the per-item batch-failure
placeholder instead carry the fourth value unknown. -/
theorem C4_amended_risk_level_values
    (tm : Option (String → Option ℚ)) (sb : String → SafeBrowsingResult)
    (c : List (String × QRResult × ℚ)) (now e : ℚ) (qr_text : String)
    (hne : qr_text ≠ "") (hmiss : cacheGet c ("qr:" ++ qr_text) now = none) :
    (((analyze_qr tm sb c now e qr_text).1).risk_level = "low" ∨
     ((analyze_qr tm sb c now e qr_text).1).risk_level = "medium" ∨
     ((analyze_qr tm sb c now e qr_text).1).risk_level = "high") ∧
    emptyQRResult.risk_level = "unknown" ∧
    (batch_error_item qr_text "error").risk_level = "unknown" := by
  refine ⟨?_, rfl, rfl⟩
  rw [analyze_qr_miss tm sb c now e qr_text hmiss hne]
  show qr_risk_level_of (qr_base3 tm sb qr_text) = "low" ∨
    qr_risk_level_of (qr_base3 tm sb qr_text) = "medium" ∨
    qr_risk_level_of (qr_base3 tm sb qr_text) = "high"
  unfold qr_risk_level_of
  split_ifs with h1 h2
  · right; right; rfl
  · right; left; rfl
  · left; rfl

/-- Witness for C4 at a concrete nonempty input. -/
theorem C4_witness :
    (((analyze_qr none sbNone [] 0 0 "hello").1).risk_level = "low" ∨
     ((analyze_qr none sbNone [] 0 0 "hello").1).risk_level = "medium" ∨
     ((analyze_qr none sbNone [] 0 0 "hello").1).risk_level = "high") ∧
    emptyQRResult.risk_level = "unknown" ∧
    (batch_error_item "hello" "error").risk_level = "unknown" :=
  C4_amended_risk_level_values none sbNone [] 0 0 "hello" (by decide) rfl

/-- Counterexample for C4 as stated: the result analyze_qr returns for the
empty input carries risk level unknown, outside the declared three-value
scale. -/
theorem C4_counterexample :
    ((analyze_qr none sbNone [] 0 0 "").1).risk_level = "unknown" ∧
    ((analyze_qr none sbNone [] 0 0 "").1).risk_level ≠ "low" ∧
    ((analyze_qr none sbNone [] 0 0 "").1).risk_level ≠ "medium" ∧
    ((analyze_qr none sbNone [] 0 0 "").1).risk_level ≠ "high" := by
  have h : analyze_qr none sbNone [] 0 0 "" = (emptyQRResult, []) :=
    analyze_qr_empty none sbNone [] 0 0 rfl
  rw [h]
  exact ⟨rfl, by decide, by decide, by decide⟩

/-- C5 (amended): the enhanced scanner's feedback deletes the cache entry for
the input's key immediately, so a lookup at any later time misses and the
next scoring call for the same input is not served from a cache entry created
before the feedback (its result has cached = false); the optimized scanner's
feedback, by contrast, performs no invalidation (see the counterexample). -/
theorem C5_amended_feedback_invalidation
    (tm : Option (String → Option ℚ)) (sb : String → SafeBrowsingResult)
    (data : List QRTrainingExample) (c : List (String × QRResult × ℚ))
    (x : String) (fb : Bool) (r : Option String) (now now2 e : ℚ) :
    cacheGet (enhanced_feedback data c x fb r).2 ("qr:" ++ x) now = none ∧
    ((analyze_qr tm sb (enhanced_feedback data c x fb r).2 now2 e x).1).cached =
      false := by
  have hdel : ∀ tq : ℚ,
      cacheGet (enhanced_feedback data c x fb r).2 ("qr:" ++ x) tq = none := by
    intro tq
    show cacheGet (cacheDelete c ("qr:" ++ x)) ("qr:" ++ x) tq = none
    exact cacheGet_delete c ("qr:" ++ x) tq
  refine ⟨hdel now, ?_⟩
  by_cases hx : x = ""
  · subst hx
    rw [analyze_qr_empty tm sb _ now2 e (hdel now2)]
    rfl
  · rw [analyze_qr_miss tm sb _ now2 e x (hdel now2) hx]
    rfl

/-
  opt_predict unfolding lemmas.
-/

theorem opt_predict_miss (m : OptFeatures → Option ℚ)
    (c : List (String × OptResult × ℚ)) (now e : ℚ) (x : String)
    (h : cacheGet c x now = none) :
    opt_predict m c now e x =
      (opt_compute m e x, cacheSet c x (opt_compute m e x) (now + 300)) := by
  simp only [opt_predict]
  rw [h]

theorem opt_predict_hit (m : OptFeatures → Option ℚ)
    (c : List (String × OptResult × ℚ)) (now e : ℚ) (x : String) (r : OptResult)
    (h : cacheGet c x now = some r) :
    opt_predict m c now e x = ({ r with cached := true }, c) := by
  simp only [opt_predict]
  rw [h]

/-- An optimized-scanner model oracle whose prediction always raises. -/
def optMnone : OptFeatures → Option ℚ := fun _ => none

/-- Empty optimized-scanner training data. -/
def optD0 : OptData := ⟨[], []⟩

/-- Counterexample for C5 as stated: in the optimized scanner, after a
feedback call for the same raw input, the next predict within the TTL is
still served from the cache entry created before the feedback (cached = true
and the returned result is the pre-feedback stored one), because
opt_feedback never touches the cache. -/
theorem C5_counterexample :
    ((opt_predict optMnone
        ((opt_feedback_state optD0 ((opt_predict optMnone [] 0 0 "upi://pay").2)
          "upi://pay" true).2) 10 0 "upi://pay").1).cached = true ∧
    ((opt_predict optMnone
        ((opt_feedback_state optD0 ((opt_predict optMnone [] 0 0 "upi://pay").2)
          "upi://pay" true).2) 10 0 "upi://pay").1) =
      { (opt_predict optMnone [] 0 0 "upi://pay").1 with cached := true } := by
  have h1 : opt_predict optMnone [] 0 0 "upi://pay" =
      (opt_compute optMnone 0 "upi://pay",
       cacheSet [] "upi://pay" (opt_compute optMnone 0 "upi://pay") (0 + 300)) :=
    opt_predict_miss optMnone [] 0 0 "upi://pay" rfl
  have hfb : (opt_feedback_state optD0 ((opt_predict optMnone [] 0 0 "upi://pay").2)
      "upi://pay" true).2 = (opt_predict optMnone [] 0 0 "upi://pay").2 := rfl
  have hget : cacheGet ((opt_predict optMnone [] 0 0 "upi://pay").2) "upi://pay" 10 =
      some (opt_compute optMnone 0 "upi://pay") := by
    rw [h1]
    show cacheGet (cacheSet [] "upi://pay" (opt_compute optMnone 0 "upi://pay") (0 + 300))
      "upi://pay" 10 = _
    rw [cacheGet_set_self]
    rw [if_pos (by norm_num)]
  have h2 : opt_predict optMnone
      ((opt_feedback_state optD0 ((opt_predict optMnone [] 0 0 "upi://pay").2)
        "upi://pay" true).2) 10 0 "upi://pay" =
      ({ opt_compute optMnone 0 "upi://pay" with cached := true },
       (opt_predict optMnone [] 0 0 "upi://pay").2) := by
    rw [hfb]
    exact opt_predict_hit optMnone _ 10 0 "upi://pay" _ hget
  constructor
  · rw [h2]
  · rw [h2, h1]
